import Mathlib

/-!
Shallow embedding of the containerd event-monitor of this repository
(`src/unnamed/part_005`, Go package `containerd`): the port-mapping
extractor, host-IP resolver, firewall-rule synchronizer, the event-handler
branches of `EventMonitor.MonitorPorts`, and the startup reconciler
`EventMonitor.initializeRunningContainers`.

External collaborators (the containerd API, `os/exec` process runs,
`encoding/json` decoding) are passed in as explicit outcome parameters;
everything the Go file itself computes is translated directly.
The Port Tracker (`pkg/tracker`) is not among the given sources, so it is
modelled from the specification (spec.md sections 3 and 4.4).
-/

/-- A decoded entry of the `nerdctl/ports` label
(Go struct `Port` in part_005). -/
structure Port where
  HostPort : Int
  ContainerPort : Int
  Protocol : String
  HostIP : String
deriving DecidableEq, Repr

/-- Embeds `nat.PortBinding` (docker go-connections): a host IP plus a
host port, both strings. -/
structure PortBinding where
  hostIP : String
  hostPort : String
deriving DecidableEq, Repr

/-- Embeds `nat.Port` (a string of the form `<port>/<proto>`), kept as its
two components. `port` plays the role of `Port.Port()`. -/
structure NatPort where
  port : String
  proto : String
deriving DecidableEq, Repr

/-- Embeds `nat.PortMap` (`map[nat.Port][]nat.PortBinding`) as an
association list with distinct keys; insertion order is kept but map
equality below ignores it, as Go map equality does. -/
abbrev PortMap := List (NatPort × List PortBinding)

/-- Association-list lookup, the analogue of indexing a Go map. -/
def pmLookup (m : PortMap) (k : NatPort) : Option (List PortBinding) :=
  match m with
  | [] => none
  | (k', v) :: rest => if k' = k then some v else pmLookup rest k

/-- Replace the value stored under an existing key. -/
def pmSet (m : PortMap) (k : NatPort) (v : List PortBinding) : PortMap :=
  match m with
  | [] => []
  | (k', v') :: rest =>
      if k' = k then (k', v) :: rest else (k', v') :: pmSet rest k v

/-- Embeds `reflect.DeepEqual` on two `nat.PortMap`s: equal key sets, and
for each key the two binding slices are equal element by element, in
order (Go slices compare positionally under DeepEqual). -/
def portMapDeepEqual (a b : PortMap) : Bool :=
  a.all (fun kv => pmLookup b kv.1 = some kv.2) &&
    b.all (fun kv => pmLookup a kv.1 = some kv.2)

/-- NormalizeHostIP, translated verbatim from part_005 lines 437-442:
`if ip == "127.0.0.1" || ip == "localhost" { return ip }` then
`return "0.0.0.0"`. Note that the `localhost` branch returns `ip`
itself. -/
def NormalizeHostIP (ip : String) : String :=
  if ip = "127.0.0.1" || ip = "localhost" then ip else "0.0.0.0"

/-- Decimal-digit string to a natural number (`strconv.ParseUint` core). -/
def digitsToNat (cs : List Char) : Nat :=
  cs.foldl (fun acc c => acc * 10 + (c.toNat - '0'.toNat)) 0

/-- Embeds `strconv.ParseUint(s, 10, 16)`: fails on an empty string, on
any non-digit character (so on a leading minus sign), and on values above
65535. -/
def goParseUint16 (s : String) : Option Nat :=
  if s.data ≠ [] ∧ s.data.all Char.isDigit then
    let v := digitsToNat s.data
    if v < 65536 then some v else none
  else none

/-- Embeds `nat.NewPort(proto, port)` for a single (non-range) port
string: parse the port with `ParsePortRangeToInt` (a 16-bit unsigned
parse for a plain integer string) and rebuild the key as
`<port>/<proto>`. -/
def natNewPort (proto : String) (portStr : String) : Except String NatPort :=
  match goParseUint16 portStr with
  | none => .error ("invalid port: " ++ portStr)
  | some v => .ok ⟨toString v, proto⟩

/-- Embeds `strconv.Itoa` on a Go int modelled as `Int`. -/
def goItoa (i : Int) : String := toString i

/-- The body of the `for _, port := range ports` loop of
`createPortMappingFromString` (part_005 lines 395-410): build the key via
`nat.NewPort`, normalize the host IP, and append the binding to the
key's slice (or start a new slice). -/
def insertPort (pm : PortMap) (port : Port) : Except String PortMap :=
  match natNewPort port.Protocol (goItoa port.ContainerPort) with
  | .error e => .error e
  | .ok portMapKey =>
      let portBinding : PortBinding :=
        ⟨NormalizeHostIP port.HostIP, goItoa port.HostPort⟩
      match pmLookup pm portMapKey with
      | some pb => .ok (pmSet pm portMapKey (pb ++ [portBinding]))
      | none => .ok (pm ++ [(portMapKey, [portBinding])])

/-- createPortMappingFromString (part_005 lines 381-413). The
`json.Unmarshal` call is an external library call and is passed in as the
`decode` parameter; everything else is translated directly: an empty
label short-circuits to an empty map before any decoding, a decode
failure is returned to the caller, and otherwise each entry is inserted
in order, aborting on a `nat.NewPort` failure. -/
def createPortMappingFromString (decode : String → Except String (List Port))
    (portMapping : String) : Except String PortMap :=
  if portMapping.length = 0 then .ok []
  else
    match decode portMapping with
    | .error e => .error e
    | .ok ports => ports.foldlM insertPort []

/-- Go RE2 word character, for the `\b` boundary. -/
def isWordChar (c : Char) : Bool := c.isAlphanum || c = '_'

/-- Go RE2 whitespace class `\s`. -/
def isGoSpace (c : Char) : Bool :=
  c = ' ' || c = '\t' || c = '\n' || c = '\x0b' || c = '\x0c' || c = '\r'

/-- Match `\d{1,3}` followed by nothing else here: take the leading run
of digits; the octet matches exactly when that run has length 1 to 3 and
is followed by the required delimiter, which the caller checks on the
returned remainder (a digit can never match the delimiter, so the greedy
run is forced). -/
def matchOctet (cs : List Char) : Option (List Char × List Char) :=
  let ds := cs.takeWhile Char.isDigit
  if 1 ≤ ds.length ∧ ds.length ≤ 3 then some (ds, cs.drop ds.length)
  else none

/-- Expect a literal character. -/
def matchChar (c : Char) : List Char → Option (List Char)
  | [] => none
  | x :: xs => if x = c then some xs else none

/-- Match `\s+`: at least one whitespace character, greedily (the pattern
continues with a digit, so the greedy run is forced). -/
def matchSpaces (cs : List Char) : Option (List Char) :=
  let ss := cs.takeWhile isGoSpace
  if ss.length = 0 then none else some (cs.drop ss.length)

/-- Try to match `inet\s+(\d{1,3}\.\d{1,3}\.\d{1,3}\.\d{1,3})\/\d{1,2}`
starting exactly at `cs` (the `\b` boundary is checked by the caller),
returning the capture group. -/
def tryMatchInetAt (cs : List Char) : Option String := do
  let r1 ← matchChar 'i' cs
  let r2 ← matchChar 'n' r1
  let r3 ← matchChar 'e' r2
  let r4 ← matchChar 't' r3
  let r5 ← matchSpaces r4
  let (o1, r6) ← matchOctet r5
  let r7 ← matchChar '.' r6
  let (o2, r8) ← matchOctet r7
  let r9 ← matchChar '.' r8
  let (o3, r10) ← matchOctet r9
  let r11 ← matchChar '.' r10
  let (o4, r12) ← matchOctet r11
  let r13 ← matchChar '/' r12
  let ds := r13.takeWhile Char.isDigit
  if ds.length = 0 then none
  else
    some (String.mk (o1 ++ '.' :: o2 ++ '.' :: o3 ++ '.' :: o4))

/-- Scan left to right for the first position where the pattern matches;
`prev` is the character before the current position, for the `\b`
boundary (the pattern starts with the word character `i`, so the
boundary holds exactly when `prev` is absent or not a word
character). -/
def findInetAux : Option Char → List Char → Option String
  | _, [] => none
  | prev, c :: cs =>
      match (if prev.elim true (fun p => !isWordChar p) then
               tryMatchInetAt (c :: cs)
             else none) with
      | some ip => some ip
      | none => findInetAux (some c) cs

/-- Embeds `rx.FindStringSubmatch` for the fixed pattern
`\binet\s+(\d{1,3}\.\d{1,3}\.\d{1,3}\.\d{1,3})\/\d{1,2}` of
`extractIPAddress` (part_005 line 423), returning the first capture
group of the leftmost match, if any. -/
def findInetSubmatch (s : String) : Option String :=
  findInetAux none s.data

/-- Distinguishable failures of the resolver and synchronizer. -/
inductive GoErr where
  /-- An external process run returned a non-zero exit (part_005: the
  `nsenter` probe of `extractIPAddress`, or an `iptables` run). -/
  | execFailed (msg : String)
  /-- The sentinel `ErrIPAddressNotFound` (part_005 lines 44-47). -/
  | ipAddressNotFound
  /-- A `json.Unmarshal` failure. -/
  | jsonErr (msg : String)
  /-- One failed `iptables` run, recorded with the attempted command. -/
  | iptablesRunFailed (chain : String)
  /-- `errors.Join` of the collected errors. -/
  | joined (errs : List GoErr)
  /-- `fmt.Errorf("%w: %+v", ErrExecIptablesRule, errs)`. -/
  | execIptablesRuleErr (errs : List GoErr)

/-- extractIPAddress (part_005 lines 415-432). The `nsenter ... ip -o -4
addr show dev eth0` probe is external; its outcome is the `probe`
parameter (`.error` models a non-zero exit from `CombinedOutput`,
`.ok out` the combined output text). A probe failure is propagated as an
execution error; output without a match yields the distinct
`ErrIPAddressNotFound`; otherwise the first capture - the bare IPv4
address - is returned. -/
def extractIPAddress (probe : Except String String) : Except GoErr String :=
  match probe with
  | .error e => .error (.execFailed e)
  | .ok output =>
      match findInetSubmatch output with
      | some ip => .ok ip
      | none => .error .ipAddressNotFound

/-- The derived chain name: embeds the external
`utils.MustFormatChainNameWithPrefix(network, cID, "DN-")` call of
part_005 line 347 abstractly but injectively, as the triple of its
arguments (network name, fully-qualified container identifier, and the
fixed "DN-" name part). -/
structure ChainName where
  network : String
  cid : String
  fixedPart : String
deriving DecidableEq, Repr

/-- One invocation of the external `iptables` command, one field per
argument pair of the `exec.CommandContext` call in part_005 lines
358-366. -/
structure IptablesCmd where
  table : String
  action : String
  chain : ChainName
  protocol : String
  destination : String
  jump : String
  dport : String
  toDestination : String
deriving DecidableEq, Repr

/-- The command built for one network in `createLoopbackIPtablesRules`
(part_005 lines 358-366): `iptables --table nat --append <chain>
--protocol tcp --destination 0.0.0.0/0 --jump DNAT --dport
<destinationPort> --to-destination <eth0IP>:<port>`. Note the protocol
argument is the literal `"tcp"`. -/
def mkLoopbackRule (network cID eth0IP port destinationPort : String) :
    IptablesCmd :=
  { table := "nat"
    action := "--append"
    chain := ⟨network, cID, "DN-"⟩
    protocol := "tcp"
    destination := "0.0.0.0/0"
    jump := "DNAT"
    dport := destinationPort
    toDestination := eth0IP ++ ":" ++ port }

/-- createLoopbackIPtablesRules (part_005 lines 334-379). `probe` is the
outcome of the external `nsenter` probe consumed by `extractIPAddress`;
`runFails` tells which external `iptables` runs exit non-zero. On a
resolution failure the error is returned with no command run; otherwise
one command is run per network - a failing run is recorded and the loop
continues - and `errors.Join` of the collected failures is returned
exactly when at least one run failed. Result: the commands run, and the
returned error if any. -/
def createLoopbackIPtablesRules (probe : Except String String)
    (runFails : IptablesCmd → Bool) (networks : List String)
    (containerID ns : String) (port destinationPort : String) :
    List IptablesCmd × Option GoErr :=
  match extractIPAddress probe with
  | .error e => ([], some e)
  | .ok eth0IP =>
      let cID := ns ++ "-" ++ containerID
      let cmds := networks.map
        (fun network => mkLoopbackRule network cID eth0IP port destinationPort)
      let allErrs := (cmds.filter runFails).map
        (fun c => GoErr.iptablesRunFailed c.chain.network)
      (cmds, if allErrs.isEmpty then none else some (.joined allErrs))

/-- execIptablesRules (part_005 lines 289-321). The `json.Unmarshal` of
the networks label is external and its outcome is the `decNets`
parameter; on failure it is returned joined, with no command run. For
every port key and every binding whose `HostIP` is `"127.0.0.1"`,
`createLoopbackIPtablesRules` is invoked with the key's port and the
binding's host port; its errors are collected and wrapped in
`ErrExecIptablesRule` exactly when at least one invocation failed. -/
def execIptablesRules (decNets : Except String (List String))
    (probe : Except String String) (runFails : IptablesCmd → Bool)
    (portMappings : PortMap) (containerID ns : String) :
    List IptablesCmd × Option GoErr :=
  match decNets with
  | .error e => ([], some (.joined [.jsonErr e]))
  | .ok containerNetworks =>
      let results := portMappings.flatMap (fun kv =>
        (kv.2.filter (fun pb => pb.hostIP = "127.0.0.1")).map (fun pb =>
          createLoopbackIPtablesRules probe runFails containerNetworks
            containerID ns kv.1.port pb.hostPort))
      let cmds := results.flatMap Prod.fst
      let errs := results.filterMap Prod.snd
      (cmds, if errs.isEmpty then none else some (.execIptablesRuleErr errs))

/-- Modelled from the spec: the Port Tracker (`pkg/tracker`, whose
implementation is not among the given sources), spec.md sections 3 and
4.4 - an in-memory store keyed by container identifier. -/
abbrev Tracker := List (String × PortMap)

/-- Modelled from the spec: `get` returns the record for the identifier,
or an absent/empty result (Go: a nil map) if untracked, never an
error. -/
def Tracker.get (t : Tracker) (id : String) : Option PortMap :=
  match t with
  | [] => none
  | (id', pm) :: rest => if id' = id then some pm else Tracker.get rest id

/-- Modelled from the spec: `add` fails if an entry already exists for
that container, and is a no-op for an empty mapping set. -/
def Tracker.add (t : Tracker) (id : String) (pm : PortMap) :
    Except String Tracker :=
  match t.get id with
  | some _ => .error ("entry already exists: " ++ id)
  | none => if pm.isEmpty then .ok t else .ok (t ++ [(id, pm)])

/-- Modelled from the spec: `remove` removes the single container's
entry, leaving every other entry in place. -/
def Tracker.remove (t : Tracker) (id : String) : Tracker :=
  match t with
  | [] => []
  | (id', pm) :: rest =>
      if id' = id then Tracker.remove rest id
      else (id', pm) :: Tracker.remove rest id

/-- One tracker method invocation, recorded by the handlers below so
that claims about "exactly one remove and one add" are about the
sequence of calls the handler performs. -/
inductive TrackerOp where
  | addOp (id : String) (pm : PortMap)
  | removeOp (id : String)
deriving DecidableEq, Repr

/-- Result of one event-handler branch: the tracker afterwards, the
tracker method calls performed, and the iptables commands run. -/
structure HandlerOut where
  tracker : Tracker
  ops : List TrackerOp
  cmds : List IptablesCmd
deriving DecidableEq, Repr

/-- The label keys of part_005 lines 38-42. -/
def namespaceKey : String := "nerdctl/namespace"

/-- The `nerdctl/ports` label key. -/
def portsKey : String := "nerdctl/ports"

/-- The `nerdctl/networks` label key. -/
def networkKey : String := "nerdctl/networks"

/-- Indexing a Go `map[string]string`: a missing key yields the zero
value `""`. -/
def getLabel (labels : List (String × String)) (key : String) : String :=
  match labels with
  | [] => ""
  | (k, v) :: rest => if k = key then v else getLabel rest key

/-- The `/tasks/start` branch of `EventMonitor.MonitorPorts` (part_005
lines 96-126): extract the port mappings from the container's ports
label (a failure is logged and leaves `ports` nil); if there are none,
continue; otherwise run `execIptablesRules` (a failure is only logged)
and then call `portTracker.Add` (a failure is only logged). `decode` is
the external ports-label JSON decoding, `decNets` the networks-label
decoding outcome, `probe` the IP-resolution probe outcome and `runFails`
the iptables run outcomes. -/
def handleTaskStart (decode : String → Except String (List Port))
    (decNets : Except String (List String)) (probe : Except String String)
    (runFails : IptablesCmd → Bool) (t : Tracker) (containerID : String)
    (portsLabel : String) (ns : String) : HandlerOut :=
  match createPortMappingFromString decode portsLabel with
  | .error _ => ⟨t, [], []⟩
  | .ok ports =>
      if ports.isEmpty then ⟨t, [], []⟩
      else
        let ex := execIptablesRules decNets probe runFails ports containerID ns
        match t.add containerID ports with
        | .ok t' => ⟨t', [.addOp containerID ports], ex.1⟩
        | .error _ => ⟨t, [.addOp containerID ports], ex.1⟩

/-- The `/containers/update` branch of `EventMonitor.MonitorPorts`
(part_005 lines 128-170): extract the port mappings (a failure is logged
and leaves `ports` nil); if there are none, continue; get the tracker's
current value; if one exists and `reflect.DeepEqual` says the new
mappings differ, call `Remove` then `Add`; if one exists and they are
equal, do nothing; if none exists, call `Add` directly. This branch
never invokes the firewall synchronizer. -/
def handleContainerUpdate (decode : String → Except String (List Port))
    (t : Tracker) (containerID : String) (portsLabel : String) : HandlerOut :=
  match createPortMappingFromString decode portsLabel with
  | .error _ => ⟨t, [], []⟩
  | .ok ports =>
      if ports.isEmpty then ⟨t, [], []⟩
      else
        match t.get containerID with
        | some existingPortMap =>
            if portMapDeepEqual ports existingPortMap then ⟨t, [], []⟩
            else
              let t1 := t.remove containerID
              match t1.add containerID ports with
              | .ok t2 =>
                  ⟨t2, [.removeOp containerID, .addOp containerID ports], []⟩
              | .error _ =>
                  ⟨t1, [.removeOp containerID, .addOp containerID ports], []⟩
        | none =>
            match t.add containerID ports with
            | .ok t' => ⟨t', [.addOp containerID ports], []⟩
            | .error _ => ⟨t, [.addOp containerID ports], []⟩

/-- The `/tasks/exit` branch of `EventMonitor.MonitorPorts` (part_005
lines 172-185): if the tracker returns a record for the identifier,
call `Remove` for it; otherwise do nothing. No firewall command is
involved. -/
def handleTaskExit (t : Tracker) (containerID : String) : HandlerOut :=
  match t.get containerID with
  | some _ => ⟨t.remove containerID, [.removeOp containerID], []⟩
  | none => ⟨t, [], []⟩

/-- The per-container inputs of the startup reconciler: the identifier
and the outcomes of the external containerd lookups (`c.Task`,
`t.Status`, `c.Labels`) and of the per-task `nsenter` probe. -/
structure ContainerInfo where
  id : String
  taskLookup : Except String Unit
  statusLookup : Except String String
  labelsLookup : Except String (List (String × String))
  probe : Except String String
deriving Repr

/-- The body of the `for _, c := range containers` loop of
`EventMonitor.initializeRunningContainers` (part_005 lines 221-267):
skip when the tracker already returns a non-empty record for the
identifier, when the task or status lookup fails, when the status is
not running, when the labels lookup fails, when extraction fails
(logged, ports left nil) or yields no ports; otherwise run
`execIptablesRules` (a failure is only logged) and call
`portTracker.Add` (a failure is only logged). -/
def initStep (decode : String → Except String (List Port))
    (decodeNets : String → Except String (List String))
    (runFails : IptablesCmd → Bool) (acc : HandlerOut) (c : ContainerInfo) :
    HandlerOut :=
  if ((acc.tracker.get c.id).getD []).length ≠ 0 then acc
  else
    match c.taskLookup with
    | .error _ => acc
    | .ok _ =>
        match c.statusLookup with
        | .error _ => acc
        | .ok status =>
            if status ≠ "running" then acc
            else
              match c.labelsLookup with
              | .error _ => acc
              | .ok labels =>
                  match createPortMappingFromString decode
                      (getLabel labels portsKey) with
                  | .error _ => acc
                  | .ok ports =>
                      if ports.isEmpty then acc
                      else
                        let ex := execIptablesRules
                          (decodeNets (getLabel labels networkKey)) c.probe
                          runFails ports c.id (getLabel labels namespaceKey)
                        match acc.tracker.add c.id ports with
                        | .ok t' =>
                            ⟨t', acc.ops ++ [.addOp c.id ports],
                              acc.cmds ++ ex.1⟩
                        | .error _ =>
                            ⟨acc.tracker, acc.ops ++ [.addOp c.id ports],
                              acc.cmds ++ ex.1⟩

/-- EventMonitor.initializeRunningContainers (part_005 lines 215-268):
fold the loop body over the enumerated containers, starting from the
given tracker with no calls recorded yet. -/
def initializeRunningContainers (decode : String → Except String (List Port))
    (decodeNets : String → Except String (List String))
    (runFails : IptablesCmd → Bool) (t : Tracker)
    (containers : List ContainerInfo) : HandlerOut :=
  containers.foldl (initStep decode decodeNets runFails) ⟨t, [], []⟩

/-- Every tracked record holds a non-empty mapping set - the tracker
invariant of spec.md section 4.4 (`Tracked(mappings)` has a non-empty
set; add with an empty set is a no-op). -/
def TrackerWF (t : Tracker) : Prop := ∀ p ∈ t, p.2 ≠ ([] : PortMap)

/-- Follows the spec's words (spec.md 4.4/8: "structural, order-independent
equality over the mapping set"): two binding lists are set-equal when each
element occurs equally often in both, regardless of order. -/
def portBindingSetEq (a b : List PortBinding) : Bool :=
  a.all (fun x => a.count x = b.count x) &&
    b.all (fun x => a.count x = b.count x)

/-- Follows the spec's words: order-independent structural equality of two
mapping tables - same keys, and for each key the binding lists are equal
as multisets. To be compared against the code's `reflect.DeepEqual`
(`portMapDeepEqual`). -/
def portMapSetEq (a b : PortMap) : Bool :=
  a.all (fun kv =>
    match pmLookup b kv.1 with
    | some l => portBindingSetEq kv.2 l
    | none => false) &&
  b.all (fun kv =>
    match pmLookup a kv.1 with
    | some l => portBindingSetEq kv.2 l
    | none => false)

/-- A container is skipped by the reconciler loop body for a reason
independent of the tracker: its task or status lookup fails, its task is
not running, its labels lookup fails, its ports label fails to decode, or
it declares no ports. -/
def inertC (decode : String → Except String (List Port))
    (c : ContainerInfo) : Bool :=
  match c.taskLookup with
  | .error _ => true
  | .ok _ =>
      match c.statusLookup with
      | .error _ => true
      | .ok status =>
          if status ≠ "running" then true
          else
            match c.labelsLookup with
            | .error _ => true
            | .ok labels =>
                match createPortMappingFromString decode
                    (getLabel labels portsKey) with
                | .error _ => true
                | .ok ports => ports.isEmpty

/-- A container is handled with respect to a tracker state: the loop body
will skip it, either because it is inert or because the tracker already
holds a non-empty record for it. -/
def handledC (decode : String → Except String (List Port))
    (c : ContainerInfo) (t : Tracker) : Prop :=
  inertC decode c = true ∨
    ∃ pm, Tracker.get t c.id = some pm ∧ pm ≠ ([] : PortMap)

/-- Sample decoded ports label: one tcp mapping, host port 8080 to
container port 80, bound to the loopback address. -/
def sampleDec1 : String → Except String (List Port) :=
  fun _ => .ok [⟨8080, 80, "tcp", "127.0.0.1"⟩]

/-- The mapping table `sampleDec1` extracts. -/
def samplePm1 : PortMap := [(⟨"80", "tcp"⟩, [⟨"127.0.0.1", "8080"⟩])]

/-- A previously tracked mapping table differing from `samplePm1` in the
host port. -/
def samplePmOld : PortMap := [(⟨"80", "tcp"⟩, [⟨"127.0.0.1", "9000"⟩])]

/-- Two distinct host bindings on the same container port. -/
def sampleBindA : PortBinding := ⟨"127.0.0.1", "8080"⟩

/-- Second binding, differing from `sampleBindA`. -/
def sampleBindB : PortBinding := ⟨"0.0.0.0", "9090"⟩

/-- A tracked table whose single key holds `[A, B]`. -/
def samplePmAB : PortMap := [(⟨"80", "tcp"⟩, [sampleBindA, sampleBindB])]

/-- The same bindings in the other order, `[B, A]`: set-equal to
`samplePmAB` but not slice-equal. -/
def samplePmBA : PortMap := [(⟨"80", "tcp"⟩, [sampleBindB, sampleBindA])]

/-- A decoder whose extraction yields `samplePmBA`. -/
def sampleDecBA : String → Except String (List Port) :=
  fun _ => .ok [⟨9090, 80, "tcp", "0.0.0.0"⟩, ⟨8080, 80, "tcp", "127.0.0.1"⟩]

/-- A decoded ports label with a single udp mapping bound to the loopback
address. -/
def sampleDecUdp : String → Except String (List Port) :=
  fun _ => .ok [⟨5353, 53, "udp", "127.0.0.1"⟩]

/-- A decoder with two keys (tcp 80 and udp 53). -/
def sampleDecTwo : String → Except String (List Port) :=
  fun _ => .ok [⟨8080, 80, "tcp", "127.0.0.1"⟩, ⟨5353, 53, "udp", ""⟩]

/-- The table `sampleDecTwo` extracts, with its two keys in the other
order - equal as a Go map, not as a list. -/
def samplePmTwoRev : PortMap :=
  [(⟨"53", "udp"⟩, [⟨"0.0.0.0", "5353"⟩]),
   (⟨"80", "tcp"⟩, [⟨"127.0.0.1", "8080"⟩])]

/-- A decoder standing for a malformed (non-JSON-decodable) label. -/
def sampleDecBad : String → Except String (List Port) :=
  fun _ => .error "invalid character"

/-- A well-formed probe output line, as printed by
`ip -o -4 addr show dev eth0`. -/
def sampleProbeOut : String :=
  "2: eth0    inet 10.4.0.22/24 brd 10.4.0.255 scope global eth0"

/-- A running container carrying the sample ports label, for the
reconciler scenario. -/
def sampleContainerC2 : ContainerInfo :=
  { id := "c2"
    taskLookup := .ok ()
    statusLookup := .ok "running"
    labelsLookup := .ok
      [(portsKey, "PORTSJSON"), (networkKey, "NETSJSON"),
       (namespaceKey, "default")]
    probe := .ok sampleProbeOut }

/-- A networks-label decoder for the samples: one network, `bridge`. -/
def sampleDecNets : String → Except String (List String) :=
  fun _ => .ok ["bridge"]

/-- A run-outcome function under which exactly the commands targeting
network `netB` fail. -/
def sampleRfB : IptablesCmd → Bool := fun c => c.chain.network = "netB"

theorem Tracker.get_append (t l : Tracker) (id : String) :
    Tracker.get (t ++ l) id =
      match Tracker.get t id with
      | some v => some v
      | none => Tracker.get l id := by
  induction t with
  | nil => simp [Tracker.get]
  | cons p rest ih =>
      obtain ⟨id', pm⟩ := p
      by_cases h : id' = id <;> simp [Tracker.get, h, ih]

theorem Tracker.get_remove_self (t : Tracker) (id : String) :
    Tracker.get (t.remove id) id = none := by
  induction t with
  | nil => simp [Tracker.remove, Tracker.get]
  | cons p rest ih =>
      obtain ⟨id', pm⟩ := p
      by_cases h : id' = id <;> simp [Tracker.remove, Tracker.get, h, ih]

theorem Tracker.get_remove_ne (t : Tracker) (id id' : String) (h : id' ≠ id) :
    Tracker.get (t.remove id) id' = Tracker.get t id' := by
  induction t with
  | nil => simp [Tracker.remove]
  | cons p rest ih =>
      obtain ⟨k, pm⟩ := p
      have hsym : ¬ (id = id') := fun hc => h hc.symm
      by_cases hk : k = id
      · simp [Tracker.remove, Tracker.get, hk, hsym, ih]
      · by_cases hk' : k = id' <;>
          simp [Tracker.remove, Tracker.get, hk, hk', h, ih]

theorem Tracker.get_some_mem (t : Tracker) (id : String) (pm : PortMap)
    (h : Tracker.get t id = some pm) : (id, pm) ∈ t := by
  induction t with
  | nil => simp [Tracker.get] at h
  | cons p rest ih =>
      obtain ⟨k, v⟩ := p
      by_cases hk : k = id
      · simp [Tracker.get, hk] at h
        simp [hk, h]
      · simp [Tracker.get, hk] at h
        exact List.mem_cons_of_mem _ (ih h)

theorem Tracker.add_of_get_none (t : Tracker) (id : String) (pm : PortMap)
    (hget : Tracker.get t id = none) (hne : pm ≠ []) :
    Tracker.add t id pm = .ok (t ++ [(id, pm)]) := by
  simp [Tracker.add, hget, List.isEmpty_iff, hne]

/-- Claim C2. The spec states NormalizeHostIP maps every input to exactly
"127.0.0.1" or "0.0.0.0", with "localhost" mapping to "127.0.0.1". The
code's own doc comment agrees that the only valid outputs are those two
literals, but the `localhost` branch returns the input itself: on
"localhost" the function returns "localhost", which is neither valid
output. The other three spec examples hold. -/
theorem C2_normalizeHostIP_localhost_bug :
    NormalizeHostIP "127.0.0.1" = "127.0.0.1" ∧
    NormalizeHostIP "10.0.0.5" = "0.0.0.0" ∧
    NormalizeHostIP "" = "0.0.0.0" ∧
    NormalizeHostIP "localhost" = "localhost" ∧
    NormalizeHostIP "localhost" ≠ "127.0.0.1" ∧
    NormalizeHostIP "localhost" ≠ "0.0.0.0" := by
  refine ⟨rfl, rfl, rfl, rfl, ?_, ?_⟩ <;> decide

/-- Claim C8. The host-IP resolver: a failing probe process is propagated
as an execution error; output containing a match of the
`inet <ipv4>/<prefixlen>` pattern yields the bare captured IPv4 address;
output without a match yields the distinct `ErrIPAddressNotFound`; and
the two failure values are distinguishable. -/
theorem C8_resolver_failure_modes :
    (∀ e, extractIPAddress (.error e) = .error (.execFailed e)) ∧
    (∀ out ip, findInetSubmatch out = some ip →
      extractIPAddress (.ok out) = .ok ip) ∧
    (∀ out, findInetSubmatch out = none →
      extractIPAddress (.ok out) = .error .ipAddressNotFound) ∧
    (∀ e, GoErr.execFailed e ≠ GoErr.ipAddressNotFound) := by
  refine ⟨fun e => rfl, fun out ip h => ?_, fun out h => ?_,
    fun e h => by cases h⟩
  · simp [extractIPAddress, h]
  · simp [extractIPAddress, h]

/-- Witness for C8 at concrete probe outcomes: a realistic
`ip -o -4 addr show dev eth0` line yields the bare address, a line
without the pattern yields the not-found error, and a failed probe
propagates the execution error. -/
theorem C8_witness :
    extractIPAddress (.ok sampleProbeOut) = .ok "10.4.0.22" ∧
    extractIPAddress (.ok "no address in this output") =
      .error .ipAddressNotFound ∧
    extractIPAddress (.error "exit status 1") =
      .error (.execFailed "exit status 1") :=
  ⟨C8_resolver_failure_modes.2.1 sampleProbeOut "10.4.0.22" (by decide),
   C8_resolver_failure_modes.2.2.1 "no address in this output" (by decide),
   C8_resolver_failure_modes.1 "exit status 1"⟩

/-- Claim C6. The extractor returns an empty table and no error for an
empty (or absent, hence empty-string) ports label; a failing decode is
surfaced to the caller as an error; and the `/tasks/start` handler, on an
extraction error, performs no tracker call and no firewall command and
leaves the tracker unchanged (it logs and continues with the container
treated as having no ports). -/
theorem C6_extractor_error_handling :
    (∀ decode, createPortMappingFromString decode "" = .ok []) ∧
    (∀ decode s e, decode s = .error e →
      createPortMappingFromString decode s = .error e ∨ s = "") ∧
    (∀ decode decNets probe runFails t id lbl ns e,
      createPortMappingFromString decode lbl = .error e →
      handleTaskStart decode decNets probe runFails t id lbl ns =
        ⟨t, [], []⟩) := by
  refine ⟨fun decode => rfl, fun decode s e h => ?_,
    fun decode decNets probe runFails t id lbl ns e h => ?_⟩
  · by_cases hs : s.length = 0
    · right
      cases s with
      | mk data => cases data with
        | nil => rfl
        | cons c cs => simp [String.length] at hs
    · left
      simp [createPortMappingFromString, hs, h]
  · simp [handleTaskStart, h]

/-- Witness for C6 at concrete inputs: the empty label yields an empty
table with a stub decoder, a malformed label surfaces the decoding
error, and the start handler on that label leaves the tracker untouched
with no commands. -/
theorem C6_witness :
    createPortMappingFromString sampleDecBad "" = .ok [] ∧
    (createPortMappingFromString sampleDecBad "notjson" =
      .error "invalid character" ∨ "notjson" = "") ∧
    handleTaskStart sampleDecBad (.ok ["bridge"]) (.ok sampleProbeOut)
      (fun _ => false) [("c9", samplePm1)] "c1" "notjson" "default" =
      ⟨[("c9", samplePm1)], [], []⟩ :=
  ⟨C6_extractor_error_handling.1 sampleDecBad,
   C6_extractor_error_handling.2.1 sampleDecBad "notjson"
     "invalid character" rfl,
   C6_extractor_error_handling.2.2 sampleDecBad (.ok ["bridge"])
     (.ok sampleProbeOut) (fun _ => false) [("c9", samplePm1)] "c1"
     "notjson" "default" "invalid character" rfl⟩

/-- Claim C9. A task-exit event for a tracked identifier performs exactly
one tracker remove of that identifier and issues no firewall command;
the removal deletes exactly that record (the identifier's entry is gone,
every other identifier's entry is unchanged); for an untracked
identifier the event changes nothing at all. -/
theorem C9_task_exit :
    (∀ (t : Tracker) (id : String) (pm : PortMap),
      Tracker.get t id = some pm →
      handleTaskExit t id =
        ⟨t.remove id, [TrackerOp.removeOp id], []⟩) ∧
    (∀ (t : Tracker) (id : String),
      Tracker.get (t.remove id) id = none) ∧
    (∀ (t : Tracker) (id id' : String), id' ≠ id →
      Tracker.get (t.remove id) id' = Tracker.get t id') ∧
    (∀ (t : Tracker) (id : String),
      Tracker.get t id = none → handleTaskExit t id = ⟨t, [], []⟩) := by
  refine ⟨fun t id pm h => ?_, Tracker.get_remove_self,
    fun t id id' h => Tracker.get_remove_ne t id id' h,
    fun t id h => ?_⟩
  · simp [handleTaskExit, h]
  · simp [handleTaskExit, h]

/-- Witness for C9 at a concrete two-entry tracker: exiting `c1` removes
exactly its entry, leaves `c3` tracked, issues no command; and a second
exit for the now-untracked `c1` changes nothing. -/
theorem C9_witness :
    handleTaskExit [("c1", samplePm1), ("c3", samplePmOld)] "c1" =
      ⟨Tracker.remove [("c1", samplePm1), ("c3", samplePmOld)] "c1",
        [TrackerOp.removeOp "c1"], []⟩ ∧
    Tracker.get
      (Tracker.remove [("c1", samplePm1), ("c3", samplePmOld)] "c1") "c1" =
      none ∧
    Tracker.get
      (Tracker.remove [("c1", samplePm1), ("c3", samplePmOld)] "c1") "c3" =
      Tracker.get [("c1", samplePm1), ("c3", samplePmOld)] "c3" ∧
    handleTaskExit [("c3", samplePmOld)] "c1" =
      ⟨[("c3", samplePmOld)], [], []⟩ :=
  ⟨C9_task_exit.1 [("c1", samplePm1), ("c3", samplePmOld)] "c1" samplePm1
      (by decide),
   C9_task_exit.2.1 [("c1", samplePm1), ("c3", samplePmOld)] "c1",
   C9_task_exit.2.2.1 [("c1", samplePm1), ("c3", samplePmOld)] "c1" "c3"
      (by decide),
   C9_task_exit.2.2.2 [("c3", samplePmOld)] "c1" (by decide)⟩

/-- Claim C10. On a task-start event with a successfully extracted,
non-empty mapping set for an untracked identifier, and likewise in the
startup reconciler's loop body for a running container, the mappings are
recorded in the tracker for every outcome of the firewall synchronizer -
the probe outcome, the networks decoding and the per-command run results
are universally quantified, so the add also happens when rule
application failed. -/
theorem C10_tracker_add_unconditional :
    (∀ decode decNets probe runFails (t : Tracker) id lbl ns ports,
      createPortMappingFromString decode lbl = .ok ports →
      ports ≠ ([] : PortMap) →
      Tracker.get t id = none →
      Tracker.get
        (handleTaskStart decode decNets probe runFails t id lbl ns).tracker
        id = some ports) ∧
    (∀ decode decodeNets runFails (acc : HandlerOut) (c : ContainerInfo)
        labels ports,
      Tracker.get acc.tracker c.id = none →
      c.taskLookup = .ok () →
      c.statusLookup = .ok "running" →
      c.labelsLookup = .ok labels →
      createPortMappingFromString decode (getLabel labels portsKey) =
        .ok ports →
      ports ≠ ([] : PortMap) →
      Tracker.get (initStep decode decodeNets runFails acc c).tracker c.id
        = some ports) := by
  constructor
  · intro decode decNets probe runFails t id lbl ns ports hdec hne hget
    have hadd := Tracker.add_of_get_none t id ports hget hne
    have hie : ports.isEmpty = false := by
      simp [List.isEmpty_iff, hne]
    simp only [handleTaskStart, hdec, hie, Bool.false_eq_true,
      if_false, hadd]
    rw [Tracker.get_append]
    simp [hget, Tracker.get]
  · intro decode decodeNets runFails acc c labels ports hget htask hstat
      hlbl hdec hne
    have hadd := Tracker.add_of_get_none acc.tracker c.id ports hget hne
    have hie : ports.isEmpty = false := by
      simp [List.isEmpty_iff, hne]
    simp only [initStep, hget, htask, hstat, hlbl, hdec, hie,
      Option.getD_none, List.length_nil, ne_eq, not_true_eq_false,
      if_false, Bool.false_eq_true, hadd]
    rw [Tracker.get_append]
    simp [hget, Tracker.get]

/-- Witness for C10: with a failing probe and every iptables run failing,
the start handler still records the extracted mappings for `c1`, and the
reconciler loop body still records them for `c2`. -/
theorem C10_witness :
    Tracker.get
      (handleTaskStart sampleDec1 (.ok ["bridge"]) (.error "exit status 1")
        (fun _ => true) [] "c1" "LBL" "default").tracker "c1" =
      some samplePm1 ∧
    Tracker.get
      (initStep sampleDec1 sampleDecNets (fun _ => true)
        ⟨[], [], []⟩ sampleContainerC2).tracker "c2" = some samplePm1 :=
  ⟨C10_tracker_add_unconditional.1 sampleDec1 (.ok ["bridge"])
      (.error "exit status 1") (fun _ => true) [] "c1" "LBL" "default"
      samplePm1 rfl (by decide) rfl,
   C10_tracker_add_unconditional.2 sampleDec1 sampleDecNets
      (fun _ => true) ⟨[], [], []⟩ sampleContainerC2
      [(portsKey, "PORTSJSON"), (networkKey, "NETSJSON"),
       (namespaceKey, "default")] samplePm1 rfl rfl rfl rfl rfl
      (by decide)⟩

/-- Counterexample to claim C1 as stated: a container-update event whose
extracted, non-empty mapping set (`samplePm1`) differs under the code's
comparison from the tracked set (`samplePmOld`) performs the one remove
and one add - but issues no firewall command at all: the
`/containers/update` branch never invokes the synchronizer, so the
claimed re-application of firewall rules does not happen. -/
theorem C1_counterexample :
    createPortMappingFromString sampleDec1 "LBL" = .ok samplePm1 ∧
    Tracker.get [("c1", samplePmOld)] "c1" = some samplePmOld ∧
    portMapDeepEqual samplePm1 samplePmOld = false ∧
    (handleContainerUpdate sampleDec1 [("c1", samplePmOld)] "c1"
        "LBL").ops =
      [TrackerOp.removeOp "c1", TrackerOp.addOp "c1" samplePm1] ∧
    (handleContainerUpdate sampleDec1 [("c1", samplePmOld)] "c1"
        "LBL").cmds = [] :=
  ⟨rfl, rfl, by decide, by decide, by decide⟩

/-- Claim C1 as amended: a container-update event whose extracted,
non-empty mapping set differs (under the code's `reflect.DeepEqual`
comparison) from the tracked set performs exactly one tracker remove
followed by one tracker add of the new set, and issues no firewall
command - the update branch does not re-run the Firewall Rule
Synchronizer. -/
theorem C1_update_remove_then_add (decode : String → Except String (List Port))
    (t : Tracker) (id lbl : String) (ports existing : PortMap)
    (hdec : createPortMappingFromString decode lbl = .ok ports)
    (hne : ports ≠ [])
    (hget : Tracker.get t id = some existing)
    (hdiff : portMapDeepEqual ports existing = false) :
    handleContainerUpdate decode t id lbl =
      ⟨t.remove id ++ [(id, ports)],
        [TrackerOp.removeOp id, TrackerOp.addOp id ports], []⟩ := by
  have hie : ports.isEmpty = false := by simp [List.isEmpty_iff, hne]
  have hadd := Tracker.add_of_get_none (t.remove id) id ports
    (Tracker.get_remove_self t id) hne
  simp only [handleContainerUpdate, hdec, hie, Bool.false_eq_true,
    if_false, hget, hdiff, hadd]

/-- Witness for C1 (amended) at the concrete differing update: the
handler removes then re-adds `c1` with the new set and issues no
command. -/
theorem C1_witness :
    handleContainerUpdate sampleDec1 [("c1", samplePmOld)] "c1" "LBL" =
      ⟨Tracker.remove [("c1", samplePmOld)] "c1" ++ [("c1", samplePm1)],
        [TrackerOp.removeOp "c1", TrackerOp.addOp "c1" samplePm1], []⟩ :=
  C1_update_remove_then_add sampleDec1 [("c1", samplePmOld)] "c1" "LBL"
    samplePm1 samplePmOld rfl (by decide) rfl (by decide)

/-- Counterexample to claim C4 as stated: the mapping tables `samplePmBA`
(extracted) and `samplePmAB` (tracked) are structurally equal under
order-independent set equality - the same key with the same two host
bindings, only the binding order swapped - yet the update handler does
mutate the tracker (one remove and one add), because the code compares
with `reflect.DeepEqual`, which is order-dependent over the per-port
binding slices. -/
theorem C4_counterexample :
    portMapSetEq samplePmBA samplePmAB = true ∧
    createPortMappingFromString sampleDecBA "LBL" = .ok samplePmBA ∧
    Tracker.get [("c1", samplePmAB)] "c1" = some samplePmAB ∧
    (handleContainerUpdate sampleDecBA [("c1", samplePmAB)] "c1"
        "LBL").ops ≠ [] :=
  ⟨by decide, rfl, rfl, by decide⟩

/-- Claim C4 as amended: a container-update event whose extracted mapping
set is equal to the tracked set under Go map equality
(`reflect.DeepEqual`: key-set equality ignoring key order, with each
key's binding slices compared element by element in order) performs no
tracker mutation and no firewall command - the handler returns the state
unchanged with no calls recorded. The comparison is order-independent
over the map's keys but order-dependent over the per-port host-binding
lists. -/
theorem C4_update_unchanged_noop (decode : String → Except String (List Port))
    (t : Tracker) (id lbl : String) (ports existing : PortMap)
    (hdec : createPortMappingFromString decode lbl = .ok ports)
    (hget : Tracker.get t id = some existing)
    (heq : portMapDeepEqual ports existing = true) :
    handleContainerUpdate decode t id lbl = ⟨t, [], []⟩ := by
  by_cases hie : ports.isEmpty
  · simp [handleContainerUpdate, hdec, hie]
  · simp [handleContainerUpdate, hdec, hie, hget, heq]

/-- Witness for C4 (amended): the extracted two-key table and the tracked
table with its keys stored in the other order are DeepEqual (map
semantics ignore key order), and the update is a no-op. -/
theorem C4_witness :
    portMapDeepEqual
      (match createPortMappingFromString sampleDecTwo "LBL" with
        | .ok pm => pm
        | .error _ => []) samplePmTwoRev = true ∧
    handleContainerUpdate sampleDecTwo [("c1", samplePmTwoRev)] "c1" "LBL" =
      ⟨[("c1", samplePmTwoRev)], [], []⟩ :=
  ⟨by decide,
   C4_update_unchanged_noop sampleDecTwo [("c1", samplePmTwoRev)] "c1"
     "LBL"
     [(⟨"80", "tcp"⟩, [⟨"127.0.0.1", "8080"⟩]),
      (⟨"53", "udp"⟩, [⟨"0.0.0.0", "5353"⟩])]
     samplePmTwoRev rfl rfl (by decide)⟩

/-- For an already resolved address, the per-binding call to the
synchronizer runs exactly the per-network commands; flattening the
mapped calls gives one command per binding and network. -/
theorem flatMap_fst_createLoopback (out ip : String) (rf : IptablesCmd → Bool)
    (networks : List String) (cid ns port : String)
    (l : List PortBinding) (hip : findInetSubmatch out = some ip) :
    ((l.map (fun pb => createLoopbackIPtablesRules (.ok out) rf networks
        cid ns port pb.hostPort)).flatMap Prod.fst) =
      l.flatMap (fun pb => networks.map (fun network =>
        mkLoopbackRule network (ns ++ "-" ++ cid) ip port pb.hostPort)) := by
  induction l with
  | nil => rfl
  | cons pb rest ih =>
      rw [List.map_cons, List.flatMap_cons, List.flatMap_cons, ih]
      congr 1
      simp [createLoopbackIPtablesRules, extractIPAddress, hip]

/-- Counterexample to claim C3 as stated: a udp mapping bound to the
loopback address produces exactly one append command, but its protocol
argument is the literal `"tcp"`, not the mapping's declared protocol
`"udp"` - the `iptables` invocation in the code hard-codes
`--protocol tcp`. -/
theorem C3_counterexample :
    createPortMappingFromString sampleDecUdp "LBL" =
      .ok [(⟨"53", "udp"⟩, [⟨"127.0.0.1", "5353"⟩])] ∧
    (execIptablesRules (.ok ["bridge"]) (.ok sampleProbeOut)
        (fun _ => false) [(⟨"53", "udp"⟩, [⟨"127.0.0.1", "5353"⟩])]
        "c1" "default").1 =
      [{ table := "nat", action := "--append",
         chain := ⟨"bridge", "default-c1", "DN-"⟩, protocol := "tcp",
         destination := "0.0.0.0/0", jump := "DNAT", dport := "5353",
         toDestination := "10.4.0.22:53" }] ∧
    ("tcp" : String) ≠ "udp" :=
  ⟨rfl, by decide, by decide⟩

/-- Claim C3 as amended: with the interface address resolved, the
synchronizer issues, for every stored binding whose host IP is
`"127.0.0.1"` and for each declared network, exactly one append command
of the fixed shape - table `nat`, append to the chain derived from the
fixed `DN-` name part, the network name and the identifier
`<namespace>-<containerID>`, protocol always the literal `"tcp"`
(regardless of the mapping's declared protocol), destination
`0.0.0.0/0`, jump `DNAT`, destination-port match equal to the binding's
host port, and DNAT target `<resolvedIP>:<containerPort>`. -/
theorem C3_rule_shape (networks : List String) (out ip : String)
    (rf : IptablesCmd → Bool) (pm : PortMap) (cid ns : String)
    (hip : findInetSubmatch out = some ip) :
    (execIptablesRules (.ok networks) (.ok out) rf pm cid ns).1 =
      pm.flatMap (fun kv =>
        (kv.2.filter (fun pb => pb.hostIP = "127.0.0.1")).flatMap
          (fun pb => networks.map (fun network =>
            ({ table := "nat"
               action := "--append"
               chain := ⟨network, ns ++ "-" ++ cid, "DN-"⟩
               protocol := "tcp"
               destination := "0.0.0.0/0"
               jump := "DNAT"
               dport := pb.hostPort
               toDestination := ip ++ ":" ++ kv.1.port } : IptablesCmd)))) := by
  simp only [execIptablesRules]
  induction pm with
  | nil => rfl
  | cons kv rest ih =>
      simp only [List.flatMap_cons, List.flatMap_append, ih]
      congr 1
      exact flatMap_fst_createLoopback out ip rf networks cid ns
        kv.1.port (kv.2.filter (fun pb => pb.hostIP = "127.0.0.1")) hip

/-- Witness for C3 (amended) at a concrete input: one loopback-bound tcp
binding, two networks, yielding the two expected commands. -/
theorem C3_witness :
    (execIptablesRules (.ok ["netA", "netB"]) (.ok sampleProbeOut)
        sampleRfB samplePm1 "c1" "default").1 =
      samplePm1.flatMap (fun kv =>
        (kv.2.filter (fun pb => pb.hostIP = "127.0.0.1")).flatMap
          (fun pb => ["netA", "netB"].map (fun network =>
            ({ table := "nat"
               action := "--append"
               chain := ⟨network, "default" ++ "-" ++ "c1", "DN-"⟩
               protocol := "tcp"
               destination := "0.0.0.0/0"
               jump := "DNAT"
               dport := pb.hostPort
               toDestination := "10.4.0.22" ++ ":" ++ kv.1.port } :
              IptablesCmd)))) :=
  C3_rule_shape ["netA", "netB"] sampleProbeOut "10.4.0.22" sampleRfB
    samplePm1 "c1" "default" (by decide)

/-- Claim C5. With the interface address resolved, the synchronizer
attempts one command for every declared network - the command list is
exactly the per-network map, so a failing network does not stop the
remaining networks - and the returned error is `none` exactly when no
network's run failed (a joined error is returned iff at least one
failed). -/
theorem C5_network_failure_aggregation (out ip : String)
    (rf : IptablesCmd → Bool) (networks : List String)
    (cid ns port dport : String) (hip : findInetSubmatch out = some ip) :
    (createLoopbackIPtablesRules (.ok out) rf networks cid ns port
        dport).1 =
      networks.map (fun n =>
        mkLoopbackRule n (ns ++ "-" ++ cid) ip port dport) ∧
    ((createLoopbackIPtablesRules (.ok out) rf networks cid ns port
        dport).2 = none ↔
      ∀ n ∈ networks,
        rf (mkLoopbackRule n (ns ++ "-" ++ cid) ip port dport) = false) := by
  constructor
  · simp [createLoopbackIPtablesRules, extractIPAddress, hip]
  · simp only [createLoopbackIPtablesRules, extractIPAddress, hip]
    by_cases h : (((networks.map (fun n =>
        mkLoopbackRule n (ns ++ "-" ++ cid) ip port dport)).filter
          rf).map
            (fun c => GoErr.iptablesRunFailed c.chain.network)).isEmpty
        = true
    · rw [if_pos h]
      rw [List.isEmpty_iff, List.map_eq_nil_iff, List.filter_eq_nil_iff]
        at h
      constructor
      · intro _ n hn
        have := h _ (List.mem_map_of_mem _ hn)
        simpa using this
      · intro _
        rfl
    · rw [if_neg h]
      constructor
      · intro hc
        exact absurd hc (Option.some_ne_none _)
      · intro hall
        exfalso
        apply h
        rw [List.isEmpty_iff, List.map_eq_nil_iff, List.filter_eq_nil_iff]
        intro c hc
        rcases List.mem_map.mp hc with ⟨n, hn, rfl⟩
        simp [hall n hn]

/-- Witness for C5: two networks with the `netB` run failing - both
commands are attempted, and the error is not `none` because a network
failed. -/
theorem C5_witness :
    (createLoopbackIPtablesRules (.ok sampleProbeOut) sampleRfB
        ["netA", "netB"] "c1" "default" "80" "8080").1 =
      ["netA", "netB"].map (fun n =>
        mkLoopbackRule n ("default" ++ "-" ++ "c1") "10.4.0.22" "80"
          "8080") ∧
    ((createLoopbackIPtablesRules (.ok sampleProbeOut) sampleRfB
        ["netA", "netB"] "c1" "default" "80" "8080").2 = none ↔
      ∀ n ∈ ["netA", "netB"],
        sampleRfB (mkLoopbackRule n ("default" ++ "-" ++ "c1") "10.4.0.22"
          "80" "8080") = false) :=
  C5_network_failure_aggregation sampleProbeOut "10.4.0.22" sampleRfB
    ["netA", "netB"] "c1" "default" "80" "8080" (by decide)

theorem get_none_of_wf_len0 (t : Tracker) (id : String) (hwf : TrackerWF t)
    (h : ((Tracker.get t id).getD []).length = 0) :
    Tracker.get t id = none := by
  cases hg : Tracker.get t id with
  | none => rfl
  | some pm =>
      rw [hg] at h
      simp only [Option.getD_some] at h
      exact absurd (List.length_eq_zero.mp h)
        (hwf _ (Tracker.get_some_mem t id pm hg))

theorem initStep_skip_tracked (d : String → Except String (List Port))
    (dn : String → Except String (List String)) (rf : IptablesCmd → Bool)
    (acc : HandlerOut) (c : ContainerInfo) (pm : PortMap)
    (hg : Tracker.get acc.tracker c.id = some pm) (hne : pm ≠ []) :
    initStep d dn rf acc c = acc := by
  have hl : ((Tracker.get acc.tracker c.id).getD []).length ≠ 0 := by
    rw [hg]
    simpa [List.length_eq_zero] using hne
  unfold initStep
  rw [if_pos hl]

theorem initStep_skip_inert (d : String → Except String (List Port))
    (dn : String → Except String (List String)) (rf : IptablesCmd → Bool)
    (acc : HandlerOut) (c : ContainerInfo) (hin : inertC d c = true) :
    initStep d dn rf acc c = acc := by
  unfold initStep
  by_cases h0 : ((Tracker.get acc.tracker c.id).getD []).length ≠ 0
  · rw [if_pos h0]
  · rw [if_neg h0]
    obtain ⟨cid, task, statusL, labelsL, probe⟩ := c
    unfold inertC at hin
    dsimp only at hin ⊢
    cases task with
    | error e => rfl
    | ok u =>
        dsimp only at hin ⊢
        cases statusL with
        | error e => rfl
        | ok status =>
            dsimp only at hin ⊢
            by_cases hs : status ≠ "running"
            · rw [if_pos hs]
            · rw [if_neg hs]
              rw [if_neg hs] at hin
              cases labelsL with
              | error e => rfl
              | ok labels =>
                  dsimp only at hin ⊢
                  cases hdec : createPortMappingFromString d
                      (getLabel labels portsKey) with
                  | error e => rfl
                  | ok ports =>
                      rw [hdec] at hin
                      dsimp only at hin ⊢
                      rw [if_pos hin]

theorem initStep_runs (d : String → Except String (List Port))
    (dn : String → Except String (List String)) (rf : IptablesCmd → Bool)
    (acc : HandlerOut) (c : ContainerInfo) (labels : List (String × String))
    (ports : PortMap)
    (hg : Tracker.get acc.tracker c.id = none)
    (htask : c.taskLookup = .ok ())
    (hstat : c.statusLookup = .ok "running")
    (hlbl : c.labelsLookup = .ok labels)
    (hdec : createPortMappingFromString d (getLabel labels portsKey) =
      .ok ports)
    (hne : ports ≠ []) :
    initStep d dn rf acc c =
      ⟨acc.tracker ++ [(c.id, ports)],
        acc.ops ++ [TrackerOp.addOp c.id ports],
        acc.cmds ++ (execIptablesRules (dn (getLabel labels networkKey))
          c.probe rf ports c.id (getLabel labels namespaceKey)).1⟩ := by
  have h0 : ¬ ((Tracker.get acc.tracker c.id).getD []).length ≠ 0 := by
    simp [hg]
  have hie : ports.isEmpty = false := by simp [List.isEmpty_iff, hne]
  have hadd := Tracker.add_of_get_none acc.tracker c.id ports hg hne
  unfold initStep
  rw [if_neg h0, htask, hstat]
  dsimp only
  rw [if_neg (by simp : ¬ ("running" : String) ≠ "running"), hlbl]
  dsimp only
  rw [hdec]
  dsimp only
  rw [if_neg (by simp [hie] : ¬ ports.isEmpty = true), hadd]

theorem initStep_tracker_cases (d : String → Except String (List Port))
    (dn : String → Except String (List String)) (rf : IptablesCmd → Bool)
    (acc : HandlerOut) (c : ContainerInfo) :
    (initStep d dn rf acc c).tracker = acc.tracker ∨
      ∃ ports : PortMap, ports ≠ [] ∧
        Tracker.get acc.tracker c.id = none ∧
        (initStep d dn rf acc c).tracker =
          acc.tracker ++ [(c.id, ports)] := by
  unfold initStep
  by_cases h0 : ((Tracker.get acc.tracker c.id).getD []).length ≠ 0
  · rw [if_pos h0]
    exact Or.inl rfl
  · rw [if_neg h0]
    obtain ⟨cid, task, statusL, labelsL, probe⟩ := c
    dsimp only at h0 ⊢
    cases task with
    | error e => exact Or.inl rfl
    | ok u =>
        dsimp only
        cases statusL with
        | error e => exact Or.inl rfl
        | ok status =>
            dsimp only
            by_cases hs : status ≠ "running"
            · rw [if_pos hs]
              exact Or.inl rfl
            · rw [if_neg hs]
              cases labelsL with
              | error e => exact Or.inl rfl
              | ok labels =>
                  dsimp only
                  cases hdec : createPortMappingFromString d
                      (getLabel labels portsKey) with
                  | error e => exact Or.inl rfl
                  | ok ports =>
                      dsimp only
                      by_cases hie : ports.isEmpty = true
                      · rw [if_pos hie]
                        exact Or.inl rfl
                      · rw [if_neg hie]
                        have hne : ports ≠ [] := by
                          simpa [List.isEmpty_iff] using hie
                        cases hg : Tracker.get acc.tracker cid with
                        | none =>
                            rw [Tracker.add_of_get_none acc.tracker cid
                              ports hg hne]
                            exact Or.inr ⟨ports, hne, rfl, rfl⟩
                        | some pm =>
                            have hadd : Tracker.add acc.tracker cid ports =
                                .error ("entry already exists: " ++ cid) := by
                              simp [Tracker.add, hg]
                            rw [hadd]
                            exact Or.inl rfl

theorem initStep_get_mono (d : String → Except String (List Port))
    (dn : String → Except String (List String)) (rf : IptablesCmd → Bool)
    (acc : HandlerOut) (c : ContainerInfo) (id : String) (pm : PortMap)
    (h : Tracker.get acc.tracker id = some pm) :
    Tracker.get (initStep d dn rf acc c).tracker id = some pm := by
  rcases initStep_tracker_cases d dn rf acc c with heq | ⟨ports, _, _, heq⟩
  · rw [heq, h]
  · rw [heq, Tracker.get_append, h]

theorem initStep_wf (d : String → Except String (List Port))
    (dn : String → Except String (List String)) (rf : IptablesCmd → Bool)
    (acc : HandlerOut) (c : ContainerInfo)
    (hwf : TrackerWF acc.tracker) :
    TrackerWF (initStep d dn rf acc c).tracker := by
  rcases initStep_tracker_cases d dn rf acc c with heq | ⟨ports, hne, _, heq⟩
  · rw [heq]
    exact hwf
  · rw [heq]
    intro p hp
    rcases List.mem_append.mp hp with hmem | hmem
    · exact hwf p hmem
    · rcases List.mem_singleton.mp hmem with rfl
      exact hne

theorem initStep_adds (d : String → Except String (List Port))
    (dn : String → Except String (List String)) (rf : IptablesCmd → Bool)
    (acc : HandlerOut) (c : ContainerInfo)
    (hin : inertC d c = false)
    (hg : Tracker.get acc.tracker c.id = none) :
    ∃ ports : PortMap, ports ≠ [] ∧
      (initStep d dn rf acc c).tracker =
        acc.tracker ++ [(c.id, ports)] := by
  have h0 : ¬ ((Tracker.get acc.tracker c.id).getD []).length ≠ 0 := by
    simp [hg]
  unfold initStep
  rw [if_neg h0]
  obtain ⟨cid, task, statusL, labelsL, probe⟩ := c
  unfold inertC at hin
  dsimp only at hg hin ⊢
  cases task with
  | error e => simp at hin
  | ok u =>
      dsimp only at hin ⊢
      cases statusL with
      | error e => simp at hin
      | ok status =>
          dsimp only at hin ⊢
          by_cases hs : status ≠ "running"
          · rw [if_pos hs] at hin
            simp at hin
          · rw [if_neg hs] at hin
            rw [if_neg hs]
            cases labelsL with
            | error e => simp at hin
            | ok labels =>
                dsimp only at hin ⊢
                cases hdec : createPortMappingFromString d
                    (getLabel labels portsKey) with
                | error e =>
                    rw [hdec] at hin
                    simp at hin
                | ok ports =>
                    rw [hdec] at hin
                    dsimp only at hin ⊢
                    have hne : ports ≠ [] := by
                      simpa [List.isEmpty_iff] using hin
                    rw [if_neg (by simp [hin] : ¬ ports.isEmpty = true)]
                    rw [Tracker.add_of_get_none acc.tracker cid ports hg hne]
                    exact ⟨ports, hne, rfl⟩

theorem initStep_establishes (d : String → Except String (List Port))
    (dn : String → Except String (List String)) (rf : IptablesCmd → Bool)
    (acc : HandlerOut) (c : ContainerInfo)
    (hwf : TrackerWF acc.tracker) :
    handledC d c (initStep d dn rf acc c).tracker := by
  by_cases hin : inertC d c = true
  · exact Or.inl hin
  · by_cases h0 : ((Tracker.get acc.tracker c.id).getD []).length ≠ 0
    · cases hg : Tracker.get acc.tracker c.id with
      | none => simp [hg] at h0
      | some pm =>
          have hne : pm ≠ [] := by
            intro hemp
            rw [hg, hemp] at h0
            simp at h0
          rw [initStep_skip_tracked d dn rf acc c pm hg hne]
          exact Or.inr ⟨pm, hg, hne⟩
    · have hg : Tracker.get acc.tracker c.id = none :=
        get_none_of_wf_len0 acc.tracker c.id hwf (by simpa using h0)
      rcases initStep_adds d dn rf acc c (by simpa using hin) hg with
        ⟨ports, hne, heq⟩
      right
      refine ⟨ports, ?_, hne⟩
      rw [heq, Tracker.get_append, hg]
      simp [Tracker.get]

theorem initStep_preserves_handled (d : String → Except String (List Port))
    (dn : String → Except String (List String)) (rf : IptablesCmd → Bool)
    (acc : HandlerOut) (c c0 : ContainerInfo)
    (h : handledC d c0 acc.tracker) :
    handledC d c0 (initStep d dn rf acc c).tracker := by
  rcases h with hin | ⟨pm, hg, hne⟩
  · exact Or.inl hin
  · exact Or.inr ⟨pm, initStep_get_mono d dn rf acc c c0.id pm hg, hne⟩

theorem initStep_skip_of_handled (d : String → Except String (List Port))
    (dn : String → Except String (List String)) (rf : IptablesCmd → Bool)
    (acc : HandlerOut) (c : ContainerInfo)
    (h : handledC d c acc.tracker) :
    initStep d dn rf acc c = acc := by
  rcases h with hin | ⟨pm, hg, hne⟩
  · exact initStep_skip_inert d dn rf acc c hin
  · exact initStep_skip_tracked d dn rf acc c pm hg hne

theorem foldl_preserves_handled (d : String → Except String (List Port))
    (dn : String → Except String (List String)) (rf : IptablesCmd → Bool)
    (c0 : ContainerInfo) (cs : List ContainerInfo) (acc : HandlerOut)
    (h : handledC d c0 acc.tracker) :
    handledC d c0 ((cs.foldl (initStep d dn rf) acc).tracker) := by
  induction cs generalizing acc with
  | nil => simpa using h
  | cons c rest ih =>
      rw [List.foldl_cons]
      exact ih _ (initStep_preserves_handled d dn rf acc c c0 h)

theorem foldl_wf (d : String → Except String (List Port))
    (dn : String → Except String (List String)) (rf : IptablesCmd → Bool)
    (cs : List ContainerInfo) (acc : HandlerOut)
    (hwf : TrackerWF acc.tracker) :
    TrackerWF ((cs.foldl (initStep d dn rf) acc).tracker) := by
  induction cs generalizing acc with
  | nil => simpa using hwf
  | cons c rest ih =>
      rw [List.foldl_cons]
      exact ih _ (initStep_wf d dn rf acc c hwf)

theorem foldl_establishes_all (d : String → Except String (List Port))
    (dn : String → Except String (List String)) (rf : IptablesCmd → Bool)
    (cs : List ContainerInfo) (acc : HandlerOut)
    (hwf : TrackerWF acc.tracker) :
    ∀ c ∈ cs, handledC d c ((cs.foldl (initStep d dn rf) acc).tracker) := by
  induction cs generalizing acc with
  | nil => simp
  | cons c rest ih =>
      intro c2 hc2
      rw [List.foldl_cons]
      rcases List.mem_cons.mp hc2 with rfl | hmem
      · exact foldl_preserves_handled d dn rf c2 rest _
          (initStep_establishes d dn rf acc c2 hwf)
      · exact ih (initStep d dn rf acc c) (initStep_wf d dn rf acc c hwf)
          c2 hmem

theorem foldl_id_of_all_handled (d : String → Except String (List Port))
    (dn : String → Except String (List String)) (rf : IptablesCmd → Bool)
    (cs : List ContainerInfo) (t : Tracker) (ops : List TrackerOp)
    (cmds : List IptablesCmd)
    (h : ∀ c ∈ cs, handledC d c t) :
    cs.foldl (initStep d dn rf) ⟨t, ops, cmds⟩ = ⟨t, ops, cmds⟩ := by
  induction cs with
  | nil => rfl
  | cons c rest ih =>
      rw [List.foldl_cons,
        initStep_skip_of_handled d dn rf ⟨t, ops, cmds⟩ c
          (h c (List.mem_cons_self c rest))]
      exact ih (fun c2 hc2 => h c2 (List.mem_cons_of_mem c hc2))

/-- Claim C7. The startup reconciler's loop body skips a container when
the tracker already holds a non-empty record for its identifier, when
its task is not in the running state, or when its extracted mapping set
is empty; otherwise (untracked identifier, running task, non-empty
extraction) it runs the firewall synchronizer and adds the mappings to
the tracker; and consequently, on a well-formed tracker, running the
reconciliation a second time over the same containers with no
intervening events issues zero firewall commands and zero tracker
calls. -/
theorem C7_startup_reconciler :
    (∀ (d : String → Except String (List Port))
        (dn : String → Except String (List String))
        (rf : IptablesCmd → Bool) (acc : HandlerOut) (c : ContainerInfo)
        (pm : PortMap),
      Tracker.get acc.tracker c.id = some pm → pm ≠ [] →
      initStep d dn rf acc c = acc) ∧
    (∀ (d : String → Except String (List Port))
        (dn : String → Except String (List String))
        (rf : IptablesCmd → Bool) (acc : HandlerOut) (c : ContainerInfo)
        (s : String),
      c.statusLookup = .ok s → s ≠ "running" →
      initStep d dn rf acc c = acc) ∧
    (∀ (d : String → Except String (List Port))
        (dn : String → Except String (List String))
        (rf : IptablesCmd → Bool) (acc : HandlerOut) (c : ContainerInfo)
        (labels : List (String × String)),
      c.labelsLookup = .ok labels →
      createPortMappingFromString d (getLabel labels portsKey) = .ok [] →
      initStep d dn rf acc c = acc) ∧
    (∀ (d : String → Except String (List Port))
        (dn : String → Except String (List String))
        (rf : IptablesCmd → Bool) (acc : HandlerOut) (c : ContainerInfo)
        (labels : List (String × String)) (ports : PortMap),
      Tracker.get acc.tracker c.id = none →
      c.taskLookup = .ok () → c.statusLookup = .ok "running" →
      c.labelsLookup = .ok labels →
      createPortMappingFromString d (getLabel labels portsKey) =
        .ok ports →
      ports ≠ [] →
      initStep d dn rf acc c =
        ⟨acc.tracker ++ [(c.id, ports)],
          acc.ops ++ [TrackerOp.addOp c.id ports],
          acc.cmds ++ (execIptablesRules (dn (getLabel labels networkKey))
            c.probe rf ports c.id (getLabel labels namespaceKey)).1⟩) ∧
    (∀ (d : String → Except String (List Port))
        (dn : String → Except String (List String))
        (rf : IptablesCmd → Bool) (t : Tracker)
        (cs : List ContainerInfo),
      TrackerWF t →
      (initializeRunningContainers d dn rf
        (initializeRunningContainers d dn rf t cs).tracker cs).cmds = [] ∧
      (initializeRunningContainers d dn rf
        (initializeRunningContainers d dn rf t cs).tracker cs).ops = []) := by
  refine ⟨fun d dn rf acc c pm hg hne =>
      initStep_skip_tracked d dn rf acc c pm hg hne,
    fun d dn rf acc c s hstat hs => ?_,
    fun d dn rf acc c labels hlbl hdec => ?_,
    fun d dn rf acc c labels ports hg htask hstat hlbl hdec hne =>
      initStep_runs d dn rf acc c labels ports hg htask hstat hlbl hdec
        hne,
    fun d dn rf t cs hwf => ?_⟩
  · apply initStep_skip_inert
    unfold inertC
    cases htask : c.taskLookup with
    | error e => rfl
    | ok u =>
        rw [hstat]
        dsimp only
        rw [if_pos hs]
  · apply initStep_skip_inert
    unfold inertC
    cases htask : c.taskLookup with
    | error e => rfl
    | ok u =>
        cases hstat : c.statusLookup with
        | error e => rfl
        | ok s =>
            dsimp only
            by_cases hs : s ≠ "running"
            · rw [if_pos hs]
            · rw [if_neg hs, hlbl]
              dsimp only
              rw [hdec]
              rfl
  · have hid := foldl_id_of_all_handled d dn rf cs
      (initializeRunningContainers d dn rf t cs).tracker [] []
      (fun c hc => foldl_establishes_all d dn rf cs ⟨t, [], []⟩ hwf c hc)
    have h2 : initializeRunningContainers d dn rf
        (initializeRunningContainers d dn rf t cs).tracker cs =
        ⟨(initializeRunningContainers d dn rf t cs).tracker, [], []⟩ := hid
    rw [h2]
    exact ⟨rfl, rfl⟩

/-- Witness for C7 at the concrete startup scenario: one running
container `c2` with a valid ports label starting from an empty tracker -
running reconciliation a second time with no intervening events issues
zero firewall commands and zero tracker calls. -/
theorem C7_witness :
    (initializeRunningContainers sampleDec1 sampleDecNets (fun _ => false)
      (initializeRunningContainers sampleDec1 sampleDecNets
        (fun _ => false) [] [sampleContainerC2]).tracker
      [sampleContainerC2]).cmds = [] ∧
    (initializeRunningContainers sampleDec1 sampleDecNets (fun _ => false)
      (initializeRunningContainers sampleDec1 sampleDecNets
        (fun _ => false) [] [sampleContainerC2]).tracker
      [sampleContainerC2]).ops = [] :=
  C7_startup_reconciler.2.2.2.2 sampleDec1 sampleDecNets (fun _ => false)
    [] [sampleContainerC2] (by simp [TrackerWF])
